import Mathlib

/-!
# AirPodsDesktop (Linux port): Bluetooth device queries and advertisement watcher

A shallow embedding of `Source/Core/Bluetooth_linux.cpp`.

* The system bus is an explicit parameter: every remote call the source makes
  (`GetManagedObjects`, `GetAll`, signal registration) is answered by a value of
  type `Except Error _`, where `.error` stands for the `sdbus::Error` exception the
  call throws.
* A C++ exception that is not caught is an `.error` result of the embedding; a
  `try`/`catch` block is a `match` on that result.
* `std::map` values are association lists in iteration order.
* Mutable objects (`AdvertisementWatcher`) are explicit state records; what the
  watcher does to the outside world (callback invocations, condition-variable
  notifications and waits) is recorded in a trace held in the state.
-/

namespace Core.Bluetooth

/-! ## Bus values -/

/-- An `sdbus::Error`: the exception thrown by a failing bus call or by a typed read
of a variant that does not hold the requested type. -/
structure Error where
  name : String
  message : String
deriving DecidableEq, Repr

/-- An `sdbus::Variant`, restricted to the payload types the source reads. `empty` is
the default-constructed variant that `std::map::operator[]` inserts for a missing key. -/
inductive Variant where
  | empty
  | string (s : String)
  | uint16 (n : Nat)
  | boolean (b : Bool)
  | other
deriving DecidableEq, Repr

/-- Typed read `Variant::get<std::string>()`. -/
def Variant.getString : Variant → Except Error String
  | .string s => .ok s
  | _ => .error ⟨"org.freedesktop.DBus.Error.InvalidArgs", "variant does not hold a string"⟩

/-- Typed read `Variant::get<uint16_t>()`. -/
def Variant.getUInt16 : Variant → Except Error Nat
  | .uint16 n => .ok n
  | _ => .error ⟨"org.freedesktop.DBus.Error.InvalidArgs", "variant does not hold a uint16"⟩

/-- Typed read `Variant::get<bool>()`. -/
def Variant.getBool : Variant → Except Error Bool
  | .boolean b => .ok b
  | _ => .error ⟨"org.freedesktop.DBus.Error.InvalidArgs", "variant does not hold a boolean"⟩

/-- An `sdbus::ObjectPath`. -/
abbrev ObjectPath := String

/-- A `std::map<std::string, sdbus::Variant>`, as an association list in iteration order. -/
abbrev VariantMap := List (String × Variant)

/-- The call `std::map::count(key)`. -/
def VariantMap.count (m : VariantMap) (key : String) : Nat :=
  (m.filter (fun kv => kv.1 == key)).length

/-- The read `std::map::operator[](key)`: the stored value, or a default-constructed
(empty) variant when the key is absent. -/
def VariantMap.index (m : VariantMap) (key : String) : Variant :=
  match m.find? (fun kv => kv.1 == key) with
  | some kv => kv.2
  | none => .empty

/-- The registry content: `std::map<sdbus::ObjectPath, std::map<std::string, sdbus::Variant>>`,
from object path to interface map, in iteration order. -/
abbrev ManagedObjects := List (ObjectPath × VariantMap)

/-- The system Bluetooth service as seen through the two remote calls of the query
path. `GetManagedObjects` answers the registry read issued on the root path;
`GetAll path iface` answers `org.freedesktop.DBus.Properties.GetAll(iface)` on `path`. -/
structure Bus where
  GetManagedObjects : Except Error ManagedObjects
  GetAll : ObjectPath → String → Except Error VariantMap

/-! ## Device -/

/-- Modelled from the spec: the enum `DeviceState` is declared in `Bluetooth_abstract.h`,
which is not among the sources; the spec gives `connectionState` the two values
`Connected` and `Disconnected`, the two the source uses. -/
inductive DeviceState where
  | Connected
  | Disconnected
deriving DecidableEq, Repr

/-- The data members of `class Device` (`Bluetooth_linux.h`). The two identifiers are
`uint16_t`; no arithmetic is performed on them. -/
structure Device where
  _path : String
  _address : String
  _name : String
  _vendorId : Nat
  _productId : Nat
  _connectionState : DeviceState
deriving DecidableEq, Repr

/-- Accessor `Device::GetAddress`. -/
def Device.GetAddress (self : Device) : String := self._address

/-- Accessor `Device::GetName`. -/
def Device.GetName (self : Device) : String := self._name

/-- Accessor `Device::GetVendorId`. -/
def Device.GetVendorId (self : Device) : Nat := self._vendorId

/-- Accessor `Device::GetProductId`. -/
def Device.GetProductId (self : Device) : Nat := self._productId

/-- Accessor `Device::GetConnectionState`. -/
def Device.GetConnectionState (self : Device) : DeviceState := self._connectionState

/-- The member function `Device::CopyFrom`: six assignments, in source order, to `*this`. -/
def Device.CopyFrom (self rhs : Device) : Device :=
  let self := { self with _path := rhs._path }
  let self := { self with _address := rhs._address }
  let self := { self with _name := rhs._name }
  let self := { self with _vendorId := rhs._vendorId }
  let self := { self with _productId := rhs._productId }
  { self with _connectionState := rhs._connectionState }

/-- The member function `Device::MoveFrom`, as far as `*this` is concerned: the same six
fields are taken over. The moved-from object is not read again by any caller. -/
def Device.MoveFrom (self rhs : Device) : Device :=
  let self := { self with _path := rhs._path }
  let self := { self with _address := rhs._address }
  let self := { self with _name := rhs._name }
  let self := { self with _vendorId := rhs._vendorId }
  let self := { self with _productId := rhs._productId }
  { self with _connectionState := rhs._connectionState }

/-- The contents of a `Device` before any constructor body has run: the strings are
default-constructed; the scalar members have no initialiser and stand here as fixed
placeholders, which every constructor overwrites before the object can be read. -/
def Device.uninitialised : Device :=
  { _path := "", _address := "", _name := "", _vendorId := 0, _productId := 0,
    _connectionState := .Disconnected }

/-- The member function `Device::FetchProperties`: one `GetAll("org.bluez.Device1")` round
trip on `_path`, then five typed reads. Any of the six steps may throw. -/
def Device.FetchProperties (bus : Bus) (self : Device) : Except Error Device :=
  match bus.GetAll self._path "org.bluez.Device1" with
  | .error e => .error e
  | .ok _properties =>
    match (_properties.index "Address").getString with
    | .error e => .error e
    | .ok address =>
      match (_properties.index "Name").getString with
      | .error e => .error e
      | .ok name =>
        match (_properties.index "VendorID").getUInt16 with
        | .error e => .error e
        | .ok vendorId =>
          match (_properties.index "ProductID").getUInt16 with
          | .error e => .error e
          | .ok productId =>
            match (_properties.index "Connected").getBool with
            | .error e => .error e
            | .ok connected =>
              .ok { self with
                    _address := address, _name := name, _vendorId := vendorId,
                    _productId := productId,
                    _connectionState :=
                      if connected then DeviceState.Connected else DeviceState.Disconnected }

/-- The constructor `Device::Device(const std::string &path)`. -/
def Device.fromPath (bus : Bus) (path : String) : Except Error Device :=
  Device.FetchProperties bus { Device.uninitialised with _path := path }

/-- The copy constructor `Device::Device(const Device &rhs)`. -/
def Device.copy (rhs : Device) : Device :=
  Device.CopyFrom Device.uninitialised rhs

/-- The move constructor `Device::Device(Device &&rhs)`. -/
def Device.move (rhs : Device) : Device :=
  Device.MoveFrom Device.uninitialised rhs

/-- The `Device` objects alive in a program, addressed by location, together with the
`GetAll` round trips (object path, interface) issued on the bus so far. -/
structure DeviceWorld where
  store : Nat → Device
  roundTrips : List (ObjectPath × String)

/-- Construction `Device(path)` of a new object at location `this`: the round trip is
issued, and the object exists afterwards only when the constructor did not throw. -/
def Device.construct (bus : Bus) (world : DeviceWorld) (this : Nat) (path : String) :
    Except Error Unit × DeviceWorld :=
  let world := { world with roundTrips := world.roundTrips ++ [(path, "org.bluez.Device1")] }
  match Device.fromPath bus path with
  | .error e => (.error e, world)
  | .ok device =>
    (.ok (), { world with store := fun loc => if loc = this then device else world.store loc })

/-- The copy assignment `Device::operator=(const Device &rhs)` on the object at location
`this`, with `rhs` the object at location `rhs` (possibly the same one). -/
def Device.assign (world : DeviceWorld) (this rhs : Nat) : DeviceWorld :=
  { world with
    store := fun loc =>
      if loc = this then Device.CopyFrom (world.store this) (world.store rhs)
      else world.store loc }

/-- Copy construction `Device(const Device &rhs)` of a new object at location `this` from
the object at location `rhs`. -/
def Device.copyConstruct (world : DeviceWorld) (this rhs : Nat) : DeviceWorld :=
  { world with
    store := fun loc => if loc = this then Device.copy (world.store rhs) else world.store loc }

/-! ## DeviceManager -/

namespace Details.DeviceManager

/-- The `for` loop of `GetDevicesByState` over the remaining `objects`, with `result` the
vector built so far. A throwing `Device` constructor leaves the loop and the function. -/
def scanObjects (bus : Bus) (state : DeviceState) :
    ManagedObjects → List Device → Except Error (List Device)
  | [], result => .ok result
  | object :: rest, result =>
    if VariantMap.count object.2 "org.bluez.Device1" ≠ 0 then
      match Device.fromPath bus object.1 with
      | .error e => .error e
      | .ok device =>
        if (state == DeviceState.Connected &&
              device.GetConnectionState == DeviceState.Connected) ||
            (state == DeviceState.Disconnected &&
              device.GetConnectionState == DeviceState.Disconnected) then
          scanObjects bus state rest (result ++ [Device.move device])
        else
          scanObjects bus state rest result
    else
      scanObjects bus state rest result

/-- The member function `Details::DeviceManager::GetDevicesByState`. -/
def GetDevicesByState (bus : Bus) (state : DeviceState) : Except Error (List Device) :=
  match bus.GetManagedObjects with
  | .error e => .error e
  | .ok objects => scanObjects bus state objects []

/-- The `for` loop of `FindDevice`: the first device whose address equals `address` is
copied into the returned optional. -/
def findLoop (address : String) : List Device → Option Device
  | [] => none
  | device :: rest =>
    if device.GetAddress == address then some (Device.copy device)
    else findLoop address rest

/-- The member function `Details::DeviceManager::FindDevice`. -/
def FindDevice (bus : Bus) (address : String) : Except Error (Option Device) :=
  match GetDevicesByState bus DeviceState.Connected with
  | .error e => .error e
  | .ok devices => .ok (findLoop address devices)

/-- An object of the registry is a peripheral when its interface map has an entry for
`org.bluez.Device1`. -/
def ExposesDevice1 (object : ObjectPath × VariantMap) : Prop :=
  ∃ v, ("org.bluez.Device1", v) ∈ object.2

/-- The devices a scan selects, stated directly: the peripheral objects in enumeration
order, each fetched, keeping those in the requested state. -/
def selected (bus : Bus) (state : DeviceState) (objects : ManagedObjects) : List Device :=
  objects.filterMap (fun object =>
    if VariantMap.count object.2 "org.bluez.Device1" ≠ 0 then
      match Device.fromPath bus object.1 with
      | .ok device => if device.GetConnectionState = state then some device else none
      | .error _ => none
    else none)

/-- What one object of the registry adds to the result of a scan: nothing, or the one
device fetched from it. -/
def contribution (bus : Bus) (state : DeviceState) (object : ObjectPath × VariantMap) :
    List Device :=
  selected bus state [object]

/-- The peripheral objects of a registry content, in enumeration order. -/
def peripherals (objects : ManagedObjects) : ManagedObjects :=
  objects.filter (fun object => VariantMap.count object.2 "org.bluez.Device1" != 0)

end Details.DeviceManager

/-! ## Sample registries -/

namespace Sample

/-- The property bag of a peripheral, keys in map order. -/
def properties (address name : String) (connected : Bool) : VariantMap :=
  [("Address", .string address), ("Connected", .boolean connected), ("Name", .string name),
   ("ProductID", .uint16 8206), ("VendorID", .uint16 76)]

/-- Three objects: an adapter, which does not expose the peripheral interface, and two
peripherals. -/
def threeObjects : ManagedObjects :=
  [("/org/bluez/hci0", [("org.bluez.Adapter1", .other)]),
   ("/org/bluez/hci0/dev_AA", [("org.bluez.Device1", .other)]),
   ("/org/bluez/hci0/dev_BB", [("org.bluez.Device1", .other)])]

/-- A bus on which both peripherals answer: `dev_AA` is connected, `dev_BB` is not. -/
def threeObjectBus : Bus where
  GetManagedObjects := .ok threeObjects
  GetAll := fun path interfaceName =>
    if interfaceName = "org.bluez.Device1" then
      if path = "/org/bluez/hci0/dev_AA" then .ok (properties "AA:AA" "Left" true)
      else if path = "/org/bluez/hci0/dev_BB" then .ok (properties "BB:BB" "Right" false)
      else .error ⟨"org.freedesktop.DBus.Error.UnknownObject", path⟩
    else .error ⟨"org.freedesktop.DBus.Error.UnknownInterface", interfaceName⟩

/-- The device fetched from `dev_AA` on `threeObjectBus`. -/
def deviceAA : Device :=
  { _path := "/org/bluez/hci0/dev_AA", _address := "AA:AA", _name := "Left",
    _vendorId := 76, _productId := 8206, _connectionState := .Connected }

/-- The device fetched from `dev_BB` on `threeObjectBus`. -/
def deviceBB : Device :=
  { _path := "/org/bluez/hci0/dev_BB", _address := "BB:BB", _name := "Right",
    _vendorId := 76, _productId := 8206, _connectionState := .Disconnected }

/-- The same registry after `dev_AA` has gone away between the enumeration and the
property fetch: its `GetAll` throws, while `dev_BB` answers and is connected. -/
def vanishedBus : Bus where
  GetManagedObjects := .ok threeObjects
  GetAll := fun path interfaceName =>
    if interfaceName = "org.bluez.Device1" then
      if path = "/org/bluez/hci0/dev_BB" then .ok (properties "BB:BB" "Right" true)
      else .error ⟨"org.freedesktop.DBus.Error.UnknownObject", path⟩
    else .error ⟨"org.freedesktop.DBus.Error.UnknownInterface", interfaceName⟩

/-- The registry after `dev_AA` has gone away between the enumeration and the property
fetch, with `dev_BB` answering as a disconnected peripheral of address `BB:BB`. -/
def vanishedIdleBus : Bus where
  GetManagedObjects := .ok threeObjects
  GetAll := fun path interfaceName =>
    if interfaceName = "org.bluez.Device1" then
      if path = "/org/bluez/hci0/dev_BB" then .ok (properties "BB:BB" "Right" false)
      else .error ⟨"org.freedesktop.DBus.Error.UnknownObject", path⟩
    else .error ⟨"org.freedesktop.DBus.Error.UnknownInterface", interfaceName⟩

end Sample

/-! ## AdvertisementWatcher -/

/-- What the watcher does to its environment, in program order: an invocation of the
registered callback with a path, a `notify_all` on one of the two condition variables,
or a bounded `wait_for` (in seconds) on one of them. -/
inductive Effect where
  | callback (path : String)
  | notifyStop
  | notifyDestroy
  | waitStop (seconds : Nat)
  | waitDestroy (seconds : Nat)
deriving DecidableEq, Repr

/-- The member function of the watcher that a registered signal handler forwards to. -/
inductive Handler where
  | OnReceived
  | OnStopped
deriving DecidableEq, Repr

/-- One registration held by `_object`: interface name, signal name, bound handler. -/
structure Registration where
  interfaceName : String
  signalName : String
  handler : Handler
deriving DecidableEq, Repr

/-- Modelled from the spec: the member `_callback` is declared in the base class of
`Bluetooth_abstract.h`, which is not among the sources; the spec describes it as a
settable callback `(path) -> void` invoked on appearance events. The slot is either
empty or holds a target; invoking the target is recorded as `Effect.callback`. -/
inductive CallbackSlot where
  | unset
  | target
deriving DecidableEq, Repr

/-- The test `if (_callback)`. -/
def CallbackSlot.toBool : CallbackSlot → Bool
  | .unset => false
  | .target => true

/-- The state of an `AdvertisementWatcher`: the data members of the class that the
member functions read or write, the registrations held by `_object`, and the trace of
effects performed so far. Time stamps are clock readings in arbitrary units. -/
structure AdvertisementWatcher where
  _stop : Bool
  _destroy : Bool
  _lastStartTime : Nat
  _callback : CallbackSlot
  _object : List Registration
  trace : List Effect
deriving DecidableEq, Repr

/-- An `sdbus::Signal`, reduced to the string that `signal >> path` reads from it. -/
structure Signal where
  path : String
deriving DecidableEq, Repr

namespace AdvertisementWatcher

/-- The constant `kRetryInterval`, in seconds. -/
def kRetryInterval : Nat := 3

/-- The call `_object->registerSignal(interfaceName, signalName, handler)`. The bus
decides whether it succeeds; `outcome` is its answer. -/
def registerSignal (outcome : Except Error Unit) (interfaceName signalName : String)
    (handler : Handler) (object : List Registration) : Except Error (List Registration) :=
  match outcome with
  | .error e => .error e
  | .ok () => .ok (object ++ [⟨interfaceName, signalName, handler⟩])

/-- The call `_object->unregisterSignalHandler(interfaceName, signalName)`. The bus
decides whether it succeeds; `outcome` is its answer. -/
def unregisterSignalHandler (outcome : Except Error Unit) (interfaceName signalName : String)
    (object : List Registration) : Except Error (List Registration) :=
  match outcome with
  | .error e => .error e
  | .ok () =>
    .ok (object.filter
      (fun r => !(r.interfaceName == interfaceName && r.signalName == signalName)))

/-- The member function `AdvertisementWatcher::Start`. `now` is the reading of the steady
clock; `added` and `removed` are the outcomes of the two registrations (the second is
attempted only when the first did not throw). Returns the result and the new state. -/
def Start (self : AdvertisementWatcher) (now : Nat) (added removed : Except Error Unit) :
    Bool × AdvertisementWatcher :=
  let self := { self with _stop := false }
  let self := { self with _lastStartTime := now }
  match registerSignal added "org.freedesktop.DBus.ObjectManager" "InterfacesAdded"
      Handler.OnReceived self._object with
  | .error _ => (false, self)
  | .ok object =>
    let self := { self with _object := object }
    match registerSignal removed "org.freedesktop.DBus.ObjectManager" "InterfacesRemoved"
        Handler.OnStopped self._object with
    | .error _ => (false, self)
    | .ok object =>
      let self := { self with _object := object }
      (true, self)

/-- The member function `AdvertisementWatcher::Stop`. `added` and `removed` are the
outcomes of the two unregistrations (the second is attempted only when the first did not
throw). Returns the result and the new state. -/
def Stop (self : AdvertisementWatcher) (added removed : Except Error Unit) :
    Bool × AdvertisementWatcher :=
  let self := { self with _stop := true }
  match unregisterSignalHandler added "org.freedesktop.DBus.ObjectManager" "InterfacesAdded"
      self._object with
  | .error _ => (false, self)
  | .ok object =>
    let self := { self with _object := object }
    match unregisterSignalHandler removed "org.freedesktop.DBus.ObjectManager"
        "InterfacesRemoved" self._object with
    | .error _ => (false, self)
    | .ok object =>
      let self := { self with _object := object }
      let self := { self with trace := self.trace ++ [Effect.waitStop kRetryInterval] }
      (true, self)

/-- The member function `AdvertisementWatcher::OnReceived`. -/
def OnReceived (self : AdvertisementWatcher) (signal : Signal) : AdvertisementWatcher :=
  let path := signal.path
  if self._stop then self
  else if self._callback.toBool then
    { self with trace := self.trace ++ [Effect.callback path] }
  else self

/-- The member function `AdvertisementWatcher::OnStopped`. -/
def OnStopped (self : AdvertisementWatcher) (_signal : Signal) : AdvertisementWatcher :=
  let self :=
    if self._stop then { self with trace := self.trace ++ [Effect.notifyStop] } else self
  if self._destroy then { self with trace := self.trace ++ [Effect.notifyDestroy] } else self

/-- The paths with which the callback has been invoked so far, in order. -/
def deliveries (self : AdvertisementWatcher) : List String :=
  self.trace.filterMap (fun e => match e with
    | Effect.callback path => some path
    | _ => none)

/-- Something that happens to a watcher: a call of one of its two public member
functions, or the bus dispatching a signal to one of its two handlers. -/
inductive Op where
  | start (now : Nat) (added removed : Except Error Unit)
  | stop (added removed : Except Error Unit)
  | received (signal : Signal)
  | stopped (signal : Signal)

/-- Whether an operation is a call of `Start`. -/
def Op.isStart : Op → Bool
  | .start _ _ _ => true
  | _ => false

/-- The state after one operation. -/
def step (self : AdvertisementWatcher) : Op → AdvertisementWatcher
  | .start now added removed => (Start self now added removed).2
  | .stop added removed => (Stop self added removed).2
  | .received signal => OnReceived self signal
  | .stopped signal => OnStopped self signal

/-- The state after a sequence of operations, oldest first. -/
def run (self : AdvertisementWatcher) (ops : List Op) : AdvertisementWatcher :=
  ops.foldl step self

/-- The state after the handler `OnReceived` has handled a sequence of signals, oldest
first. -/
def receiveAll (self : AdvertisementWatcher) (signals : List Signal) : AdvertisementWatcher :=
  signals.foldl OnReceived self

/-- The watcher as its member initialisers leave it (`_stop{false}`, `_destroy{false}`),
with nothing registered on `_object` and no callback set. -/
def init : AdvertisementWatcher :=
  { _stop := false, _destroy := false, _lastStartTime := 0, _callback := .unset,
    _object := [], trace := [] }

/-- The first statement of the guarded block of the destructor: `_destroy = true`. Between
this statement and the call of `Stop` that follows it, the dispatch thread may run a
handler on the state this leaves. -/
def markDestroying (self : AdvertisementWatcher) : AdvertisementWatcher :=
  { self with _destroy := true }

/-- The destructor `AdvertisementWatcher::~AdvertisementWatcher`. `added` and `removed`
are the outcomes of the two unregistrations of the `Stop` it may call. The result is the
state in which the object is released. -/
def destructor (self : AdvertisementWatcher) (added removed : Except Error Unit) :
    AdvertisementWatcher :=
  if !self._stop then
    let self := markDestroying self
    let self := (Stop self added removed).2
    { self with trace := self.trace ++ [Effect.waitDestroy 1] }
  else self

/-- The effects performed between two states of a watcher: what `after` has in its trace
beyond the trace of `before`. -/
def newEffects (before after : AdvertisementWatcher) : List Effect :=
  after.trace.drop before.trace.length

end AdvertisementWatcher

namespace Sample

/-- A program state with no device constructed yet and no round trip issued. -/
def emptyWorld : DeviceWorld :=
  { store := fun _ => Device.uninitialised, roundTrips := [] }

/-- A fresh watcher on which the owner has set a callback. -/
def listeningWatcher : AdvertisementWatcher :=
  { AdvertisementWatcher.init with _callback := .target }

/-- The bus error used where a registration or unregistration fails. -/
def disconnected : Error :=
  ⟨"org.freedesktop.DBus.Error.Disconnected", "connection lost"⟩

/-- The watcher with a callback after a successful `Start` at time 5 and a successful
`Stop`. -/
def stoppedWatcher : AdvertisementWatcher :=
  (AdvertisementWatcher.Stop
    (AdvertisementWatcher.Start listeningWatcher 5 (.ok ()) (.ok ())).2 (.ok ()) (.ok ())).2

/-- The watcher with a callback after a successful `Start` at time 5. -/
def startedWatcher : AdvertisementWatcher :=
  (AdvertisementWatcher.Start listeningWatcher 5 (.ok ()) (.ok ())).2

end Sample

end Core.Bluetooth

/-! ## Media control (`Source/Core/GlobalMedia_linux.cpp`) -/

namespace Core.GlobalMedia

/-- A method-call message as built by `dbus_message_new_method_call`. -/
structure MethodCall where
  destination : String
  path : String
  interfaceName : String
  method : String
deriving DecidableEq, Repr

/-- What the session bus library answers to the three calls of `sendDbusCommand` that
can fail: whether `dbus_bus_get` returned a connection, whether the message could be
allocated, and whether `dbus_connection_send` accepted it. -/
structure Session where
  connected : Bool
  messageAllocated : Bool
  sendAccepted : Bool
deriving DecidableEq, Repr

/-- How a call of `sendDbusCommand` ends: it returns, having sent a message or not, or
it ends the process through `exit`. -/
inductive Outcome where
  | returned (sent : Option MethodCall)
  | exited (code : Nat)
deriving DecidableEq, Repr

/-- The function `sendDbusCommand(const char* method)`. -/
def sendDbusCommand (session : Session) (method : String) : Outcome :=
  if !session.connected then .returned none
  else if !session.messageAllocated then .exited 1
  else if !session.sendAccepted then .exited 1
  else .returned (some
    { destination := "org.mpris.MediaPlayer2.player", path := "/org/mpris/MediaPlayer2",
      interfaceName := "org.mpris.MediaPlayer2.Player", method := method })

/-- The member function `Controller::Play`. -/
def Controller.Play (session : Session) : Outcome :=
  sendDbusCommand session "Play"

/-- The member function `Controller::Pause`. -/
def Controller.Pause (session : Session) : Outcome :=
  sendDbusCommand session "Play"

/-- A session on which every library call succeeds. -/
def workingSession : Session :=
  { connected := true, messageAllocated := true, sendAccepted := true }

end Core.GlobalMedia

namespace Core.Bluetooth

/-! ## Device: basic facts -/

theorem Device.CopyFrom_eq (self rhs : Device) : Device.CopyFrom self rhs = rhs := by
  cases rhs; rfl

theorem Device.MoveFrom_eq (self rhs : Device) : Device.MoveFrom self rhs = rhs := by
  cases rhs; rfl

theorem Device.copy_eq (rhs : Device) : Device.copy rhs = rhs :=
  Device.CopyFrom_eq _ rhs

theorem Device.move_eq (rhs : Device) : Device.move rhs = rhs :=
  Device.MoveFrom_eq _ rhs

theorem Variant.getString_ok {v : Variant} {s : String} (h : v.getString = .ok s) :
    v = .string s := by
  cases v <;> simp [Variant.getString] at h
  rw [h]

theorem Variant.getUInt16_ok {v : Variant} {n : Nat} (h : v.getUInt16 = .ok n) :
    v = .uint16 n := by
  cases v <;> simp [Variant.getUInt16] at h
  rw [h]

theorem Variant.getBool_ok {v : Variant} {b : Bool} (h : v.getBool = .ok b) :
    v = .boolean b := by
  cases v <;> simp [Variant.getBool] at h
  rw [h]

/-- What a successful construction from a path tells: the bus answered the `GetAll` round
trip on that path, and the five members are the five properties of the answer. -/
theorem Device.fromPath_ok {bus : Bus} {path : String} {d : Device}
    (h : Device.fromPath bus path = .ok d) :
    d._path = path ∧
    ∃ props, bus.GetAll path "org.bluez.Device1" = .ok props ∧
      props.index "Address" = .string d._address ∧
      props.index "Name" = .string d._name ∧
      props.index "VendorID" = .uint16 d._vendorId ∧
      props.index "ProductID" = .uint16 d._productId ∧
      props.index "Connected" = .boolean (decide (d._connectionState = .Connected)) := by
  unfold Device.fromPath Device.FetchProperties at h
  simp only [] at h
  split at h
  · cases h
  · rename_i props hprops
    split at h
    · cases h
    · rename_i a ha
      split at h
      · cases h
      · rename_i n hn
        split at h
        · cases h
        · rename_i v hv
          split at h
          · cases h
          · rename_i q hq
            split at h
            · cases h
            · rename_i c hc
              simp only [Except.ok.injEq] at h
              subst h
              refine ⟨rfl, props, hprops, Variant.getString_ok ha, Variant.getString_ok hn,
                Variant.getUInt16_ok hv, Variant.getUInt16_ok hq, ?_⟩
              rw [Variant.getBool_ok hc]
              cases c <;> simp

namespace Details.DeviceManager

theorem count_ne_zero_iff (object : ObjectPath × VariantMap) :
    VariantMap.count object.2 "org.bluez.Device1" ≠ 0 ↔ ExposesDevice1 object := by
  unfold VariantMap.count ExposesDevice1
  rw [Ne, List.length_eq_zero, ← Ne]
  constructor
  · intro hne
    obtain ⟨⟨k, v⟩, hkv⟩ := List.exists_mem_of_ne_nil _ hne
    rw [List.mem_filter] at hkv
    obtain ⟨hmem, hk⟩ := hkv
    simp only [beq_iff_eq] at hk
    subst hk
    exact ⟨v, hmem⟩
  · rintro ⟨v, hv⟩
    exact List.ne_nil_of_mem (List.mem_filter.mpr ⟨hv, by simp⟩)

/-- The test of the `if` inside the scan loop holds exactly when the states are equal. -/
theorem state_test (state s : DeviceState) :
    ((state == DeviceState.Connected && s == DeviceState.Connected) ||
      (state == DeviceState.Disconnected && s == DeviceState.Disconnected)) = true ↔
    s = state := by
  cases state <;> cases s <;> decide

/-- When every peripheral fetch succeeds, the loop returns, and it appends the selected
devices to what it was given. -/
theorem scanObjects_ok (bus : Bus) (state : DeviceState) (objects : ManagedObjects) :
    ∀ result : List Device,
    (∀ o ∈ objects, ExposesDevice1 o → ∃ d, Device.fromPath bus o.1 = .ok d) →
    scanObjects bus state objects result = .ok (result ++ selected bus state objects) := by
  induction objects with
  | nil => intro result _; simp [scanObjects, selected]
  | cons o rest ih =>
    intro result h
    have hrest : ∀ o ∈ rest, ExposesDevice1 o → ∃ d, Device.fromPath bus o.1 = .ok d :=
      fun x hx => h x (List.mem_cons_of_mem _ hx)
    unfold scanObjects
    by_cases hc : VariantMap.count o.2 "org.bluez.Device1" ≠ 0
    · obtain ⟨d, hd⟩ := h o (List.mem_cons_self _ _) ((count_ne_zero_iff o).mp hc)
      rw [if_pos hc]
      simp only [hd]
      by_cases hs : d.GetConnectionState = state
      · rw [if_pos ((state_test state d.GetConnectionState).mpr hs), ih _ hrest,
          Device.move_eq]
        simp [selected, List.filterMap_cons, hc, hd, hs]
      · rw [if_neg (fun ht => hs ((state_test state d.GetConnectionState).mp ht)),
          ih _ hrest]
        simp [selected, List.filterMap_cons, hc, hd, hs]
    · rw [if_neg hc, ih _ hrest]
      simp [selected, List.filterMap_cons, hc]

/-- Whenever the loop returns, every peripheral fetch had succeeded. -/
theorem scanObjects_returns (bus : Bus) (state : DeviceState) (objects : ManagedObjects) :
    ∀ result r : List Device, scanObjects bus state objects result = .ok r →
    ∀ o ∈ objects, ExposesDevice1 o → ∃ d, Device.fromPath bus o.1 = .ok d := by
  induction objects with
  | nil => intro _ _ _ o ho; cases ho
  | cons x rest ih =>
    intro result r h o ho hexp
    unfold scanObjects at h
    by_cases hc : VariantMap.count x.2 "org.bluez.Device1" ≠ 0
    · rw [if_pos hc] at h
      cases hx : Device.fromPath bus x.1 with
      | error e => simp [hx] at h
      | ok d =>
        simp only [hx] at h
        rcases List.mem_cons.mp ho with rfl | hmem
        · exact ⟨d, hx⟩
        · split at h
          · exact ih _ _ h o hmem hexp
          · exact ih _ _ h o hmem hexp
    · rw [if_neg hc] at h
      rcases List.mem_cons.mp ho with rfl | hmem
      · exact absurd ((count_ne_zero_iff _).mpr hexp) hc
      · exact ih _ _ h o hmem hexp

/-- Membership in the selected devices. -/
theorem mem_selected {bus : Bus} {state : DeviceState} {objects : ManagedObjects}
    {d : Device} :
    d ∈ selected bus state objects ↔
      ∃ o ∈ objects, ExposesDevice1 o ∧ Device.fromPath bus o.1 = .ok d ∧
        d.GetConnectionState = state := by
  unfold selected
  rw [List.mem_filterMap]
  constructor
  · rintro ⟨o, ho, h⟩
    by_cases hc : VariantMap.count o.2 "org.bluez.Device1" ≠ 0
    · rw [if_pos hc] at h
      cases hx : Device.fromPath bus o.1 with
      | error e => simp [hx] at h
      | ok d0 =>
        simp only [hx] at h
        by_cases hs : d0.GetConnectionState = state
        · rw [if_pos hs] at h
          cases h
          exact ⟨o, ho, (count_ne_zero_iff o).mp hc, hx, hs⟩
        · rw [if_neg hs] at h; cases h
    · rw [if_neg hc] at h; cases h
  · rintro ⟨o, ho, hexp, hx, hs⟩
    refine ⟨o, ho, ?_⟩
    rw [if_pos ((count_ne_zero_iff o).mpr hexp)]
    simp [hx, hs]

/-- A returned scan, unfolded: the registry read succeeded, every peripheral fetch
succeeded, and the result is the selection. -/
theorem GetDevicesByState_returns {bus : Bus} {state : DeviceState} {devices : List Device}
    (h : GetDevicesByState bus state = .ok devices) :
    ∃ objects, bus.GetManagedObjects = .ok objects ∧
      (∀ o ∈ objects, ExposesDevice1 o → ∃ d, Device.fromPath bus o.1 = .ok d) ∧
      devices = selected bus state objects := by
  unfold GetDevicesByState at h
  cases hreg : bus.GetManagedObjects with
  | error e => simp [hreg] at h
  | ok objects =>
    simp only [hreg] at h
    have hall := scanObjects_returns bus state objects [] devices h
    refine ⟨objects, rfl, hall, ?_⟩
    rw [scanObjects_ok bus state objects [] hall] at h
    simpa using h.symm

/-- A scan over a registry whose peripheral fetches all succeed returns the selection. -/
theorem GetDevicesByState_ok {bus : Bus} {objects : ManagedObjects} (state : DeviceState)
    (hreg : bus.GetManagedObjects = .ok objects)
    (hfetch : ∀ o ∈ objects, ExposesDevice1 o → ∃ d, Device.fromPath bus o.1 = .ok d) :
    GetDevicesByState bus state = .ok (selected bus state objects) := by
  unfold GetDevicesByState
  simp only [hreg]
  rw [scanObjects_ok bus state objects [] hfetch]
  simp

/-- The scan stops at the first peripheral whose fetch throws, with that error. -/
theorem scanObjects_first_failure (bus : Bus) (state : DeviceState)
    (pre : ManagedObjects) (o : ObjectPath × VariantMap) (post : ManagedObjects) (e : Error) :
    ∀ result : List Device,
    (∀ x ∈ pre, ExposesDevice1 x → ∃ d, Device.fromPath bus x.1 = .ok d) →
    ExposesDevice1 o → Device.fromPath bus o.1 = .error e →
    scanObjects bus state (pre ++ o :: post) result = .error e := by
  induction pre with
  | nil =>
    intro result _ hexp herr
    simp only [List.nil_append]
    unfold scanObjects
    rw [if_pos ((count_ne_zero_iff o).mpr hexp)]
    simp [herr]
  | cons x rest ih =>
    intro result hpre hexp herr
    have hrest : ∀ y ∈ rest, ExposesDevice1 y → ∃ d, Device.fromPath bus y.1 = .ok d :=
      fun y hy => hpre y (List.mem_cons_of_mem _ hy)
    simp only [List.cons_append]
    unfold scanObjects
    by_cases hc : VariantMap.count x.2 "org.bluez.Device1" ≠ 0
    · obtain ⟨d, hd⟩ := hpre x (List.mem_cons_self _ _) ((count_ne_zero_iff x).mp hc)
      rw [if_pos hc]
      simp only [hd]
      split
      · exact ih _ hrest hexp herr
      · exact ih _ hrest hexp herr
    · rw [if_neg hc]
      exact ih _ hrest hexp herr

theorem selected_cons (bus : Bus) (state : DeviceState) (o : ObjectPath × VariantMap)
    (rest : ManagedObjects) :
    selected bus state (o :: rest) = contribution bus state o ++ selected bus state rest := by
  unfold contribution selected
  rw [List.filterMap_cons, List.filterMap_cons, List.filterMap_nil]
  split <;> simp

theorem selected_eq_flatMap (bus : Bus) (state : DeviceState) (objects : ManagedObjects) :
    selected bus state objects = objects.flatMap (contribution bus state) := by
  induction objects with
  | nil => rfl
  | cons o rest ih => rw [selected_cons, List.flatMap_cons, ih]

/-- An object that does not expose the peripheral interface contributes nothing. -/
theorem contribution_of_not_exposes (bus : Bus) (state : DeviceState)
    (o : ObjectPath × VariantMap) (h : ¬ ExposesDevice1 o) : contribution bus state o = [] := by
  have hc : ¬ VariantMap.count o.2 "org.bluez.Device1" ≠ 0 :=
    fun hc => h ((count_ne_zero_iff o).mp hc)
  simp [contribution, selected, List.filterMap_cons, hc]

/-- A fetched peripheral contributes its device to the scan for its own state only. -/
theorem contribution_of_fetched (bus : Bus) (state : DeviceState)
    (o : ObjectPath × VariantMap) (d : Device) (h : ExposesDevice1 o)
    (hd : Device.fromPath bus o.1 = .ok d) :
    contribution bus state o = if d.GetConnectionState = state then [d] else [] := by
  have hc : VariantMap.count o.2 "org.bluez.Device1" ≠ 0 := (count_ne_zero_iff o).mpr h
  by_cases hs : d.GetConnectionState = state <;>
    simp [contribution, selected, List.filterMap_cons, hc, hd, hs]

theorem mem_peripherals {objects : ManagedObjects} {o : ObjectPath × VariantMap} :
    o ∈ peripherals objects ↔ o ∈ objects ∧ ExposesDevice1 o := by
  unfold peripherals
  rw [List.mem_filter, ← count_ne_zero_iff]
  simp

theorem selected_length_add (bus : Bus) (objects : ManagedObjects) :
    (∀ o ∈ objects, ExposesDevice1 o → ∃ d, Device.fromPath bus o.1 = .ok d) →
    (selected bus .Connected objects).length + (selected bus .Disconnected objects).length =
      (peripherals objects).length := by
  induction objects with
  | nil => intro _; rfl
  | cons o rest ih =>
    intro h
    have hrest := ih (fun x hx => h x (List.mem_cons_of_mem _ hx))
    rw [selected_cons, selected_cons, List.length_append, List.length_append]
    by_cases hexp : ExposesDevice1 o
    · obtain ⟨d, hd⟩ := h o (List.mem_cons_self _ _) hexp
      have hp : peripherals (o :: rest) = o :: peripherals rest := by
        unfold peripherals
        rw [List.filter_cons_of_pos]
        simpa using (count_ne_zero_iff o).mpr hexp
      rw [contribution_of_fetched bus _ o d hexp hd, contribution_of_fetched bus _ o d hexp hd,
        hp, List.length_cons]
      cases hs : d.GetConnectionState <;> simp <;> omega
    · have hp : peripherals (o :: rest) = peripherals rest := by
        unfold peripherals
        rw [List.filter_cons_of_neg]
        simpa using fun hc => hexp ((count_ne_zero_iff o).mp hc)
      rw [contribution_of_not_exposes bus _ o hexp, contribution_of_not_exposes bus _ o hexp, hp]
      simpa using hrest

theorem findLoop_eq_find (address : String) (devices : List Device) :
    findLoop address devices = devices.find? (fun d => d.GetAddress == address) := by
  induction devices with
  | nil => rfl
  | cons d rest ih =>
    unfold findLoop
    rw [List.find?_cons]
    by_cases h : (d.GetAddress == address) = true
    · rw [if_pos h, Device.copy_eq]
      simp [h]
    · rw [if_neg h, ih]
      simp [h]

/-- The error with which the loop fails does not depend on the requested state nor on the
result built so far: it is the error of the first failing fetch. -/
theorem scanObjects_error_indep (bus : Bus) (s s' : DeviceState) (objects : ManagedObjects) :
    ∀ (result result' : List Device) (e : Error),
    scanObjects bus s objects result = .error e →
    scanObjects bus s' objects result' = .error e := by
  induction objects with
  | nil =>
    intro result result' e h
    simp [scanObjects] at h
  | cons x rest ih =>
    intro result result' e h
    unfold scanObjects at h ⊢
    by_cases hc : VariantMap.count x.2 "org.bluez.Device1" ≠ 0
    · rw [if_pos hc] at h ⊢
      cases hx : Device.fromPath bus x.1 with
      | error e0 =>
        simp only [hx] at h ⊢
        exact h
      | ok d =>
        simp only [hx] at h ⊢
        split at h <;> split <;> exact ih _ _ e h
    · rw [if_neg hc] at h ⊢
      exact ih _ _ e h

/-- Two scans of the same bus fail alike, whatever the requested states. -/
theorem GetDevicesByState_error_indep (bus : Bus) (s s' : DeviceState) (e : Error)
    (h : GetDevicesByState bus s = .error e) : GetDevicesByState bus s' = .error e := by
  unfold GetDevicesByState at h ⊢
  cases hreg : bus.GetManagedObjects with
  | error e0 =>
    simp only [hreg] at h ⊢
    exact h
  | ok objects =>
    simp only [hreg] at h ⊢
    exact scanObjects_error_indep bus s s' objects [] [] e h

/-- The search fails with the error of the scan it is built on. -/
theorem FindDevice_error (bus : Bus) (a : String) (e : Error)
    (h : GetDevicesByState bus .Connected = .error e) : FindDevice bus a = .error e := by
  unfold FindDevice
  simp only [h]

theorem mem_of_GetDevicesByState {bus : Bus} {state : DeviceState} {devices : List Device}
    (h : GetDevicesByState bus state = .ok devices) {d : Device} (hd : d ∈ devices) :
    d.GetConnectionState = state := by
  obtain ⟨objects, _, _, rfl⟩ := GetDevicesByState_returns h
  obtain ⟨_, _, _, _, hs⟩ := mem_selected.mp hd
  exact hs

end Details.DeviceManager

namespace Sample

theorem threeObjects_exposes {o : ObjectPath × VariantMap} (ho : o ∈ threeObjects)
    (hexp : Details.DeviceManager.ExposesDevice1 o) :
    o = ("/org/bluez/hci0/dev_AA", [("org.bluez.Device1", .other)]) ∨
    o = ("/org/bluez/hci0/dev_BB", [("org.bluez.Device1", .other)]) := by
  simp only [threeObjects, List.mem_cons, List.mem_singleton, List.not_mem_nil, or_false] at ho
  rcases ho with rfl | rfl | rfl
  · obtain ⟨v, hv⟩ := hexp
    simp at hv
  · exact Or.inl rfl
  · exact Or.inr rfl

theorem threeObjectBus_fetch :
    ∀ o ∈ threeObjects, Details.DeviceManager.ExposesDevice1 o →
      ∃ d, Device.fromPath threeObjectBus o.1 = .ok d := by
  intro o ho hexp
  rcases threeObjects_exposes ho hexp with rfl | rfl
  · exact ⟨deviceAA, rfl⟩
  · exact ⟨deviceBB, rfl⟩

end Sample

/-! ## DeviceManager: the query contract -/

namespace Details.DeviceManager

/-- C1. When the registry read yields `objects` and the property fetch succeeds for every
peripheral object, `GetDevicesByState s` returns, and every device of the result is in
state `s` and was constructed from an object of the registry whose interface map contains
`org.bluez.Device1`; for `s = Connected` the `Connected` property fetched for that object
was `true`. -/
theorem devicesByState_sound (bus : Bus) (objects : ManagedObjects) (s : DeviceState)
    (hreg : bus.GetManagedObjects = .ok objects)
    (hfetch : ∀ o ∈ objects, ExposesDevice1 o → ∃ d, Device.fromPath bus o.1 = .ok d) :
    ∃ devices, GetDevicesByState bus s = .ok devices ∧
      ∀ d ∈ devices, d.GetConnectionState = s ∧
        ∃ o ∈ objects, ExposesDevice1 o ∧ Device.fromPath bus o.1 = .ok d ∧
          (s = DeviceState.Connected →
            ∃ props, bus.GetAll o.1 "org.bluez.Device1" = .ok props ∧
              props.index "Connected" = Variant.boolean true) := by
  refine ⟨selected bus s objects, GetDevicesByState_ok s hreg hfetch, ?_⟩
  intro d hd
  obtain ⟨o, ho, hexp, hfrom, hs⟩ := mem_selected.mp hd
  refine ⟨hs, o, ho, hexp, hfrom, ?_⟩
  intro hconn
  obtain ⟨_, props, hprops, _, _, _, _, hc⟩ := Device.fromPath_ok hfrom
  refine ⟨props, hprops, ?_⟩
  rw [hc]
  have : d._connectionState = DeviceState.Connected := by rw [← hconn]; exact hs
  simp [this]

/-- C1, on the three-object registry: the scan for connected devices returns, and all it
returns is connected and comes from a peripheral object. -/
theorem devicesByState_sound_witness :
    Sample.threeObjectBus.GetManagedObjects = .ok Sample.threeObjects ∧
    ∃ devices, GetDevicesByState Sample.threeObjectBus .Connected = .ok devices ∧
      ∀ d ∈ devices, d.GetConnectionState = .Connected ∧
        ∃ o ∈ Sample.threeObjects, ExposesDevice1 o ∧
          Device.fromPath Sample.threeObjectBus o.1 = .ok d ∧
          (DeviceState.Connected = DeviceState.Connected →
            ∃ props, Sample.threeObjectBus.GetAll o.1 "org.bluez.Device1" = .ok props ∧
              props.index "Connected" = Variant.boolean true) :=
  ⟨rfl, devicesByState_sound Sample.threeObjectBus Sample.threeObjects .Connected rfl
    Sample.threeObjectBus_fetch⟩

/-- C2, as the source has it. When every peripheral fetch succeeds, the scans for
`Connected` and for `Disconnected` both return and split the peripheral objects between
them: each result is the concatenation, in enumeration order, of what each object
contributes; a peripheral object contributes its one device to exactly one of the two; an
object that is not a peripheral contributes to neither; no device is in both results; and
the two lengths add up to the number of peripherals. When a peripheral fetch fails,
neither scan returns: each of the two returns exactly when every peripheral fetch
succeeds, and the two fail with the same error. -/
theorem devicesByState_complement (bus : Bus) (objects : ManagedObjects)
    (hreg : bus.GetManagedObjects = .ok objects) :
    ((∀ o ∈ objects, ExposesDevice1 o → ∃ d, Device.fromPath bus o.1 = .ok d) →
      ∃ connected disconnected,
        GetDevicesByState bus .Connected = .ok connected ∧
        GetDevicesByState bus .Disconnected = .ok disconnected ∧
        connected = objects.flatMap (contribution bus .Connected) ∧
        disconnected = objects.flatMap (contribution bus .Disconnected) ∧
        (∀ o ∈ objects, ExposesDevice1 o →
          ∃ d, Device.fromPath bus o.1 = .ok d ∧
            ((contribution bus .Connected o = [d] ∧ contribution bus .Disconnected o = []) ∨
             (contribution bus .Connected o = [] ∧ contribution bus .Disconnected o = [d]))) ∧
        (∀ o ∈ objects, ¬ ExposesDevice1 o →
          contribution bus .Connected o = [] ∧ contribution bus .Disconnected o = []) ∧
        (∀ d ∈ connected, d ∉ disconnected) ∧
        (∀ o, o ∈ peripherals objects ↔ o ∈ objects ∧ ExposesDevice1 o) ∧
        connected.length + disconnected.length = (peripherals objects).length) ∧
    ((∃ connected, GetDevicesByState bus .Connected = .ok connected) ↔
      ∀ o ∈ objects, ExposesDevice1 o → ∃ d, Device.fromPath bus o.1 = .ok d) ∧
    ((∃ disconnected, GetDevicesByState bus .Disconnected = .ok disconnected) ↔
      ∀ o ∈ objects, ExposesDevice1 o → ∃ d, Device.fromPath bus o.1 = .ok d) ∧
    (∀ e, GetDevicesByState bus .Connected = .error e ↔
      GetDevicesByState bus .Disconnected = .error e) := by
  have hiff : ∀ s : DeviceState, (∃ devices, GetDevicesByState bus s = .ok devices) ↔
      ∀ o ∈ objects, ExposesDevice1 o → ∃ d, Device.fromPath bus o.1 = .ok d := by
    intro s
    constructor
    · rintro ⟨devices, h⟩
      obtain ⟨objects', hreg', hall, _⟩ := GetDevicesByState_returns h
      rw [hreg] at hreg'
      cases hreg'
      exact hall
    · intro h
      exact ⟨_, GetDevicesByState_ok s hreg h⟩
  refine ⟨?_, hiff _, hiff _, fun e =>
    ⟨GetDevicesByState_error_indep bus _ _ e, GetDevicesByState_error_indep bus _ _ e⟩⟩
  intro hfetch
  refine ⟨selected bus .Connected objects, selected bus .Disconnected objects,
    GetDevicesByState_ok _ hreg hfetch, GetDevicesByState_ok _ hreg hfetch,
    selected_eq_flatMap _ _ _, selected_eq_flatMap _ _ _, ?_, ?_, ?_,
    fun o => mem_peripherals, selected_length_add bus objects hfetch⟩
  · intro o ho hexp
    obtain ⟨d, hd⟩ := hfetch o ho hexp
    refine ⟨d, hd, ?_⟩
    rw [contribution_of_fetched bus _ o d hexp hd, contribution_of_fetched bus _ o d hexp hd]
    cases hs : d.GetConnectionState <;> simp
  · intro o _ hexp
    exact ⟨contribution_of_not_exposes bus _ o hexp, contribution_of_not_exposes bus _ o hexp⟩
  · intro d hc hdis
    obtain ⟨_, _, _, _, h1⟩ := mem_selected.mp hc
    obtain ⟨_, _, _, _, h2⟩ := mem_selected.mp hdis
    rw [h1] at h2
    cases h2

/-- C2, on the three-object registry (an adapter, a connected and a disconnected
peripheral): each scan returns exactly one device, and the adapter is in neither. -/
theorem devicesByState_complement_witness :
    GetDevicesByState Sample.threeObjectBus .Connected = .ok [Sample.deviceAA] ∧
    GetDevicesByState Sample.threeObjectBus .Disconnected = .ok [Sample.deviceBB] ∧
    Sample.threeObjects.length = 3 ∧ (peripherals Sample.threeObjects).length = 2 ∧
    ∃ connected disconnected,
      GetDevicesByState Sample.threeObjectBus .Connected = .ok connected ∧
      GetDevicesByState Sample.threeObjectBus .Disconnected = .ok disconnected ∧
      connected.length + disconnected.length = (peripherals Sample.threeObjects).length := by
  obtain ⟨connected, disconnected, h1, h2, _, _, _, _, _, _, hlen⟩ :=
    (devicesByState_complement Sample.threeObjectBus Sample.threeObjects rfl).1
      Sample.threeObjectBus_fetch
  exact ⟨rfl, rfl, rfl, rfl, connected, disconnected, h1, h2, hlen⟩

/-- C2 fails as stated: on the registry whose first peripheral has vanished, `dev_BB`
exposes the peripheral interface and its fetch succeeds, yet both scans fail with the
error of `dev_AA`, so `dev_BB` contributes a device to neither result and there are no
two results whose lengths could add up to the number of peripherals. -/
theorem devicesByState_no_complement_on_fetch_error :
    Sample.vanishedBus.GetManagedObjects = .ok Sample.threeObjects ∧
    (peripherals Sample.threeObjects).length = 2 ∧
    (∃ d, Device.fromPath Sample.vanishedBus "/org/bluez/hci0/dev_BB" = .ok d) ∧
    GetDevicesByState Sample.vanishedBus .Connected =
      .error ⟨"org.freedesktop.DBus.Error.UnknownObject", "/org/bluez/hci0/dev_AA"⟩ ∧
    GetDevicesByState Sample.vanishedBus .Disconnected =
      .error ⟨"org.freedesktop.DBus.Error.UnknownObject", "/org/bluez/hci0/dev_AA"⟩ ∧
    ¬ ∃ connected disconnected,
      GetDevicesByState Sample.vanishedBus .Connected = .ok connected ∧
      GetDevicesByState Sample.vanishedBus .Disconnected = .ok disconnected ∧
      connected.length + disconnected.length = (peripherals Sample.threeObjects).length := by
  refine ⟨rfl, rfl, ⟨_, rfl⟩, rfl, rfl, ?_⟩
  rintro ⟨connected, disconnected, h, _, _⟩
  have herr : GetDevicesByState Sample.vanishedBus .Connected =
      .error ⟨"org.freedesktop.DBus.Error.UnknownObject", "/org/bluez/hci0/dev_AA"⟩ := rfl
  rw [herr] at h
  cases h

/-- C3. Whenever the scan for connected devices returns `devices`, `FindDevice a` returns
the first element of `devices`, in order, whose address is exactly `a`: it is `some d`
exactly when `d` has address `a` and no element before `d` in `devices` has; it is `none`
exactly when no element has address `a`; and a device it returns has address `a` and is
connected. -/
theorem findDevice_first_match (bus : Bus) (a : String) (devices : List Device)
    (hscan : GetDevicesByState bus .Connected = .ok devices) :
    FindDevice bus a = .ok (devices.find? (fun d => d.GetAddress == a)) ∧
    (FindDevice bus a = .ok none ↔ ∀ d ∈ devices, d.GetAddress ≠ a) ∧
    (∀ d, FindDevice bus a = .ok (some d) ↔
      d.GetAddress = a ∧
        ∃ before after, devices = before ++ d :: after ∧ ∀ x ∈ before, x.GetAddress ≠ a) ∧
    (∀ d, FindDevice bus a = .ok (some d) →
      d ∈ devices ∧ d.GetAddress = a ∧ d.GetConnectionState = .Connected) := by
  have hfind : FindDevice bus a = .ok (devices.find? (fun d => d.GetAddress == a)) := by
    unfold FindDevice
    simp only [hscan]
    rw [findLoop_eq_find]
  have hsome : ∀ d, FindDevice bus a = .ok (some d) ↔
      d.GetAddress = a ∧
        ∃ before after, devices = before ++ d :: after ∧
          ∀ x ∈ before, x.GetAddress ≠ a := by
    intro d
    rw [hfind, Except.ok.injEq, List.find?_eq_some]
    simp
  refine ⟨hfind, ?_, hsome, ?_⟩
  · rw [hfind, Except.ok.injEq, List.find?_eq_none]
    simp
  · intro d hd
    obtain ⟨haddr, before, after, hsplit, _⟩ := (hsome d).mp hd
    have hmem : d ∈ devices := by rw [hsplit]; simp
    exact ⟨hmem, haddr, mem_of_GetDevicesByState hscan hmem⟩

/-- C3, on the three-object registry: the connected device is found by its address. -/
theorem findDevice_first_match_witness :
    GetDevicesByState Sample.threeObjectBus .Connected = .ok [Sample.deviceAA] ∧
    FindDevice Sample.threeObjectBus "AA:AA" = .ok (some Sample.deviceAA) ∧
    FindDevice Sample.threeObjectBus "aa:aa" = .ok none ∧
    FindDevice Sample.threeObjectBus "AA:AA" =
      .ok ([Sample.deviceAA].find? (fun d => d.GetAddress == "AA:AA")) :=
  ⟨rfl, rfl, rfl,
    (findDevice_first_match Sample.threeObjectBus "AA:AA" [Sample.deviceAA] rfl).1⟩

/-- C4, as the source has it. If every peripheral object whose fetched address is `a` is
disconnected, then `FindDevice a` never returns a device. When every peripheral fetch
succeeds, it returns "not found", while the scan for disconnected devices returns a list
that holds every device fetched with address `a`. When a peripheral fetch fails,
`FindDevice a` fails with the error of the first failing peripheral in enumeration order,
whichever object `a` belongs to. -/
theorem findDevice_disconnected_not_found (bus : Bus) (objects : ManagedObjects) (a : String)
    (hreg : bus.GetManagedObjects = .ok objects)
    (hdis : ∀ o ∈ objects, ExposesDevice1 o → ∀ d, Device.fromPath bus o.1 = .ok d →
      d.GetAddress = a → d.GetConnectionState = .Disconnected) :
    (∀ d, FindDevice bus a ≠ .ok (some d)) ∧
    ((∀ o ∈ objects, ExposesDevice1 o → ∃ d, Device.fromPath bus o.1 = .ok d) →
      FindDevice bus a = .ok none ∧
      ∃ disconnected, GetDevicesByState bus .Disconnected = .ok disconnected ∧
        ∀ o ∈ objects, ExposesDevice1 o → ∀ d, Device.fromPath bus o.1 = .ok d →
          d.GetAddress = a → d ∈ disconnected) ∧
    (∀ before o after e, objects = before ++ o :: after →
      (∀ x ∈ before, ExposesDevice1 x → ∃ d, Device.fromPath bus x.1 = .ok d) →
      ExposesDevice1 o → Device.fromPath bus o.1 = .error e →
      FindDevice bus a = .error e ∧ GetDevicesByState bus .Disconnected = .error e) := by
  have hnone : ∀ devices, GetDevicesByState bus .Connected = .ok devices →
      findLoop a devices = none := by
    intro devices hscan
    rw [findLoop_eq_find, List.find?_eq_none]
    intro d hd haddr
    obtain ⟨objects', hreg', _, rfl⟩ := GetDevicesByState_returns hscan
    rw [hreg] at hreg'
    cases hreg'
    obtain ⟨o, ho, hexp, hfrom, hs⟩ := mem_selected.mp hd
    have := hdis o ho hexp d hfrom (by simpa using haddr)
    rw [hs] at this
    cases this
  refine ⟨?_, ?_, ?_⟩
  · intro d hd
    unfold FindDevice at hd
    cases hscan : GetDevicesByState bus .Connected with
    | error e => simp [hscan] at hd
    | ok devices =>
      simp only [hscan, Except.ok.injEq] at hd
      rw [hnone devices hscan] at hd
      cases hd
  · intro hfetch
    have hscan := GetDevicesByState_ok .Connected hreg hfetch
    refine ⟨?_, selected bus .Disconnected objects,
      GetDevicesByState_ok .Disconnected hreg hfetch, ?_⟩
    · unfold FindDevice
      simp only [hscan]
      rw [hnone _ hscan]
    · intro o ho hexp d hfrom haddr
      exact mem_selected.mpr ⟨o, ho, hexp, hfrom, hdis o ho hexp d hfrom haddr⟩
  · intro before o after e hsplit hbefore hexp herr
    have hscan : GetDevicesByState bus .Connected = .error e := by
      unfold GetDevicesByState
      simp only [hreg]
      rw [hsplit]
      exact scanObjects_first_failure bus _ before o after e [] hbefore hexp herr
    exact ⟨FindDevice_error bus a e hscan, GetDevicesByState_error_indep bus _ _ e hscan⟩

/-- C4, on the three-object registry: `BB:BB` belongs to the disconnected peripheral only;
it is not found, although the scan for disconnected devices returns it. -/
theorem findDevice_disconnected_not_found_witness :
    FindDevice Sample.threeObjectBus "BB:BB" = .ok none ∧
    GetDevicesByState Sample.threeObjectBus .Disconnected = .ok [Sample.deviceBB] ∧
    Sample.deviceBB.GetAddress = "BB:BB" ∧
    ∀ d, FindDevice Sample.threeObjectBus "BB:BB" ≠ .ok (some d) := by
  have hdis : ∀ o ∈ Sample.threeObjects, ExposesDevice1 o →
      ∀ d, Device.fromPath Sample.threeObjectBus o.1 = .ok d →
        d.GetAddress = "BB:BB" → d.GetConnectionState = .Disconnected := by
    intro o ho hexp d hfrom haddr
    rcases Sample.threeObjects_exposes ho hexp with rfl | rfl
    · have hd : d = Sample.deviceAA := by
        have h : Device.fromPath Sample.threeObjectBus "/org/bluez/hci0/dev_AA" =
            .ok Sample.deviceAA := rfl
        rw [h] at hfrom
        cases hfrom
        rfl
      subst hd
      simp [Sample.deviceAA, Device.GetAddress] at haddr
    · have hd : d = Sample.deviceBB := by
        have h : Device.fromPath Sample.threeObjectBus "/org/bluez/hci0/dev_BB" =
            .ok Sample.deviceBB := rfl
        rw [h] at hfrom
        cases hfrom
        rfl
      subst hd
      rfl
  have h := findDevice_disconnected_not_found Sample.threeObjectBus Sample.threeObjects
    "BB:BB" rfl hdis
  exact ⟨(h.2.1 Sample.threeObjectBus_fetch).1, rfl, rfl, h.1⟩

/-- C4 fails as stated: on the registry whose first peripheral has vanished, the only
peripheral fetched with address `BB:BB` is disconnected, so the condition of the claim
holds; yet `FindDevice "BB:BB"` does not return "not found", it fails with the error of
the vanished peripheral, and so does the scan for disconnected devices. -/
theorem findDevice_fails_on_fetch_error :
    (∀ o ∈ Sample.threeObjects, ExposesDevice1 o →
      ∀ d, Device.fromPath Sample.vanishedIdleBus o.1 = .ok d →
        d.GetAddress = "BB:BB" → d.GetConnectionState = .Disconnected) ∧
    Device.fromPath Sample.vanishedIdleBus "/org/bluez/hci0/dev_BB" = .ok Sample.deviceBB ∧
    FindDevice Sample.vanishedIdleBus "BB:BB" =
      .error ⟨"org.freedesktop.DBus.Error.UnknownObject", "/org/bluez/hci0/dev_AA"⟩ ∧
    FindDevice Sample.vanishedIdleBus "BB:BB" ≠ .ok none ∧
    GetDevicesByState Sample.vanishedIdleBus .Disconnected =
      .error ⟨"org.freedesktop.DBus.Error.UnknownObject", "/org/bluez/hci0/dev_AA"⟩ := by
  refine ⟨?_, rfl, rfl, ?_, rfl⟩
  · intro o ho hexp d hfrom _
    rcases Sample.threeObjects_exposes ho hexp with rfl | rfl
    · have h : Device.fromPath Sample.vanishedIdleBus "/org/bluez/hci0/dev_AA" =
          .error ⟨"org.freedesktop.DBus.Error.UnknownObject", "/org/bluez/hci0/dev_AA"⟩ := rfl
      rw [h] at hfrom
      cases hfrom
    · have h : Device.fromPath Sample.vanishedIdleBus "/org/bluez/hci0/dev_BB" =
          .ok Sample.deviceBB := rfl
      rw [h] at hfrom
      cases hfrom
      rfl
  · intro h
    have herr : FindDevice Sample.vanishedIdleBus "BB:BB" =
        .error ⟨"org.freedesktop.DBus.Error.UnknownObject", "/org/bluez/hci0/dev_AA"⟩ := rfl
    rw [herr] at h
    cases h

/-- C5, as the source has it: a scan returns exactly when every peripheral fetch
succeeds. If a peripheral fetch throws, the scan is aborted with the error of the first
failing peripheral in enumeration order, and no list is returned. When the scan returns,
the result holds the device of every peripheral object whose state is `s`. -/
theorem devicesByState_fetch_failure_aborts (bus : Bus) (objects : ManagedObjects)
    (s : DeviceState) (hreg : bus.GetManagedObjects = .ok objects) :
    ((∃ devices, GetDevicesByState bus s = .ok devices) ↔
      ∀ o ∈ objects, ExposesDevice1 o → ∃ d, Device.fromPath bus o.1 = .ok d) ∧
    (∀ before o after e, objects = before ++ o :: after →
      (∀ x ∈ before, ExposesDevice1 x → ∃ d, Device.fromPath bus x.1 = .ok d) →
      ExposesDevice1 o → Device.fromPath bus o.1 = .error e →
      GetDevicesByState bus s = .error e) ∧
    (∀ devices, GetDevicesByState bus s = .ok devices →
      ∀ o ∈ objects, ExposesDevice1 o → ∀ d, Device.fromPath bus o.1 = .ok d →
        d.GetConnectionState = s → d ∈ devices) := by
  refine ⟨⟨?_, fun h => ⟨_, GetDevicesByState_ok s hreg h⟩⟩, ?_, ?_⟩
  · rintro ⟨devices, h⟩
    obtain ⟨objects', hreg', hall, _⟩ := GetDevicesByState_returns h
    rw [hreg] at hreg'
    cases hreg'
    exact hall
  · intro before o after e hsplit hbefore hexp herr
    unfold GetDevicesByState
    simp only [hreg]
    rw [hsplit]
    exact scanObjects_first_failure bus s before o after e [] hbefore hexp herr
  · intro devices h o ho hexp d hfrom hs
    obtain ⟨objects', hreg', _, rfl⟩ := GetDevicesByState_returns h
    rw [hreg] at hreg'
    cases hreg'
    exact mem_selected.mpr ⟨o, ho, hexp, hfrom, hs⟩

/-- C5, on the registry whose first peripheral has vanished: the scan fails with the
error of that peripheral's fetch. -/
theorem devicesByState_fetch_failure_aborts_witness :
    Sample.vanishedBus.GetManagedObjects = .ok Sample.threeObjects ∧
    GetDevicesByState Sample.vanishedBus .Connected =
      .error ⟨"org.freedesktop.DBus.Error.UnknownObject", "/org/bluez/hci0/dev_AA"⟩ := by
  refine ⟨rfl, ?_⟩
  refine (devicesByState_fetch_failure_aborts Sample.vanishedBus Sample.threeObjects
    .Connected rfl).2.1 [("/org/bluez/hci0", [("org.bluez.Adapter1", .other)])]
    ("/org/bluez/hci0/dev_AA", [("org.bluez.Device1", .other)])
    [("/org/bluez/hci0/dev_BB", [("org.bluez.Device1", .other)])] _ rfl ?_
    ⟨Variant.other, List.mem_singleton.mpr rfl⟩ rfl
  intro x hx hexp
  rw [List.mem_singleton] at hx
  subst hx
  obtain ⟨v, hv⟩ := hexp
  simp at hv

/-- C5 fails as stated: on the registry whose first peripheral has vanished, the other
peripheral is fetched successfully and is connected, yet the scan for connected devices
fails instead of skipping the vanished object, and so returns no list at all. -/
theorem devicesByState_fetch_failure_not_skipped :
    Device.fromPath Sample.vanishedBus "/org/bluez/hci0/dev_AA" =
      .error ⟨"org.freedesktop.DBus.Error.UnknownObject", "/org/bluez/hci0/dev_AA"⟩ ∧
    (∃ d, Device.fromPath Sample.vanishedBus "/org/bluez/hci0/dev_BB" = .ok d ∧
      d.GetConnectionState = .Connected) ∧
    GetDevicesByState Sample.vanishedBus .Connected =
      .error ⟨"org.freedesktop.DBus.Error.UnknownObject", "/org/bluez/hci0/dev_AA"⟩ ∧
    ¬ ∃ devices, GetDevicesByState Sample.vanishedBus .Connected = .ok devices := by
  refine ⟨rfl, ⟨_, rfl, rfl⟩, rfl, ?_⟩
  rintro ⟨devices, h⟩
  have herr : GetDevicesByState Sample.vanishedBus .Connected =
      .error ⟨"org.freedesktop.DBus.Error.UnknownObject", "/org/bluez/hci0/dev_AA"⟩ := rfl
  rw [herr] at h
  cases h

end Details.DeviceManager

/-! ## AdvertisementWatcher: basic facts -/

namespace AdvertisementWatcher

theorem Stop_stop (self : AdvertisementWatcher) (added removed : Except Error Unit) :
    (Stop self added removed).2._stop = true := by
  unfold Stop unregisterSignalHandler
  cases added <;> cases removed <;> rfl

theorem Stop_deliveries (self : AdvertisementWatcher) (added removed : Except Error Unit) :
    deliveries (Stop self added removed).2 = deliveries self := by
  unfold Stop unregisterSignalHandler
  cases added <;> cases removed <;> simp [deliveries, List.filterMap_append]

theorem Stop_fst (self : AdvertisementWatcher) (added removed : Except Error Unit) :
    (Stop self added removed).1 = true ↔ added = .ok () ∧ removed = .ok () := by
  unfold Stop unregisterSignalHandler
  cases added <;> cases removed <;> simp

theorem Start_stop (self : AdvertisementWatcher) (now : Nat)
    (added removed : Except Error Unit) : (Start self now added removed).2._stop = false := by
  unfold Start registerSignal
  cases added <;> cases removed <;> rfl

theorem Start_fst (self : AdvertisementWatcher) (now : Nat)
    (added removed : Except Error Unit) :
    (Start self now added removed).1 = true ↔ added = .ok () ∧ removed = .ok () := by
  unfold Start registerSignal
  cases added <;> cases removed <;> simp

/-- What `Start` leaves alone, whether it succeeds or not. -/
theorem Start_frame (self : AdvertisementWatcher) (now : Nat)
    (added removed : Except Error Unit) :
    (Start self now added removed).2._destroy = self._destroy ∧
    (Start self now added removed).2._callback = self._callback ∧
    (Start self now added removed).2.trace = self.trace ∧
    (Start self now added removed).2._lastStartTime = now := by
  unfold Start registerSignal
  cases added <;> cases removed <;> exact ⟨rfl, rfl, rfl, rfl⟩

theorem OnReceived_of_stop (self : AdvertisementWatcher) (signal : Signal)
    (h : self._stop = true) : OnReceived self signal = self := by
  unfold OnReceived
  simp [h]

theorem OnReceived_of_listening (self : AdvertisementWatcher) (signal : Signal)
    (hstop : self._stop = false) (hcb : self._callback = .target) :
    OnReceived self signal =
      { self with trace := self.trace ++ [Effect.callback signal.path] } := by
  unfold OnReceived
  simp [hstop, hcb, CallbackSlot.toBool]

theorem OnStopped_stop (self : AdvertisementWatcher) (signal : Signal) :
    (OnStopped self signal)._stop = self._stop := by
  unfold OnStopped
  cases hs : self._stop <;> cases hd : self._destroy <;> simp [hs, hd]

theorem OnStopped_deliveries (self : AdvertisementWatcher) (signal : Signal) :
    deliveries (OnStopped self signal) = deliveries self := by
  unfold OnStopped
  cases hs : self._stop <;> cases hd : self._destroy <;>
    simp [hs, hd, deliveries, List.filterMap_append]

theorem receiveAll_of_stop (signals : List Signal) :
    ∀ self : AdvertisementWatcher, self._stop = true → receiveAll self signals = self := by
  induction signals with
  | nil => intro self _; rfl
  | cons signal rest ih =>
    intro self h
    show receiveAll (OnReceived self signal) rest = self
    rw [OnReceived_of_stop self signal h]
    exact ih self h

/-- While no `Start` is called, a set stop gate stays set and nothing is delivered. -/
theorem run_of_stop (ops : List Op) :
    ∀ self : AdvertisementWatcher, self._stop = true →
      (∀ op ∈ ops, op.isStart = false) →
      (run self ops)._stop = true ∧ deliveries (run self ops) = deliveries self := by
  induction ops with
  | nil => intro self h _; exact ⟨h, rfl⟩
  | cons op rest ih =>
    intro self h hops
    have hrest : ∀ x ∈ rest, x.isStart = false := fun x hx => hops x (List.mem_cons_of_mem _ hx)
    have hop := hops op (List.mem_cons_self _ _)
    show (run (step self op) rest)._stop = true ∧
      deliveries (run (step self op) rest) = deliveries self
    cases op with
    | start now added removed => simp [Op.isStart] at hop
    | stop added removed =>
      obtain ⟨h1, h2⟩ := ih (step self (.stop added removed)) (Stop_stop self added removed) hrest
      exact ⟨h1, h2.trans (Stop_deliveries self added removed)⟩
    | received signal =>
      have hs : step self (.received signal) = self := OnReceived_of_stop self signal h
      rw [hs]
      exact ih self h hrest
    | stopped signal =>
      obtain ⟨h1, h2⟩ := ih (step self (.stopped signal))
        ((OnStopped_stop self signal).trans h) hrest
      exact ⟨h1, h2.trans (OnStopped_deliveries self signal)⟩

/-! ## AdvertisementWatcher: the lifecycle contract -/

/-- C7. After `Stop` has returned, with either result, the stop gate is set; every
appearance event then handled by `OnReceived` is dropped, leaving the state as it was, so
the callback has been invoked no more often than before the `Stop`; and the same holds
along every sequence of calls and events in which `Start` is not called. -/
theorem no_late_delivery (self : AdvertisementWatcher) (added removed : Except Error Unit)
    (ops : List Op) (hops : ∀ op ∈ ops, op.isStart = false) :
    (Stop self added removed).2._stop = true ∧
    (∀ signals, receiveAll (Stop self added removed).2 signals = (Stop self added removed).2) ∧
    (∀ signals, deliveries (receiveAll (Stop self added removed).2 signals) =
      deliveries self) ∧
    (run (Stop self added removed).2 ops)._stop = true ∧
    deliveries (run (Stop self added removed).2 ops) = deliveries self := by
  have hstop := Stop_stop self added removed
  have hdel := Stop_deliveries self added removed
  obtain ⟨h1, h2⟩ := run_of_stop ops _ hstop hops
  refine ⟨hstop, fun signals => receiveAll_of_stop signals _ hstop, ?_, h1, h2.trans hdel⟩
  intro signals
  rw [receiveAll_of_stop signals _ hstop, hdel]

/-- C7, on a started watcher with a callback: after a `Stop` whose second unregistration
fails, two appearance events, a removal event and a further `Stop` deliver nothing. -/
theorem no_late_delivery_witness :
    (Start Sample.listeningWatcher 5 (.ok ()) (.ok ())).1 = true ∧
    deliveries (Start Sample.listeningWatcher 5 (.ok ()) (.ok ())).2 = [] ∧
    (Stop (Start Sample.listeningWatcher 5 (.ok ()) (.ok ())).2 (.ok ())
      (.error Sample.disconnected)).1 = false ∧
    deliveries
      (run (Stop (Start Sample.listeningWatcher 5 (.ok ()) (.ok ())).2 (.ok ())
          (.error Sample.disconnected)).2
        [.received ⟨"/org/bluez/hci0/dev_AA"⟩, .stopped ⟨"/org/bluez/hci0/dev_AA"⟩,
         .stop (.ok ()) (.ok ()), .received ⟨"/org/bluez/hci0/dev_BB"⟩]) = [] :=
  ⟨rfl, rfl, rfl,
    (no_late_delivery (Start Sample.listeningWatcher 5 (.ok ()) (.ok ())).2 (.ok ())
      (.error Sample.disconnected)
      [.received ⟨"/org/bluez/hci0/dev_AA"⟩, .stopped ⟨"/org/bluez/hci0/dev_AA"⟩,
       .stop (.ok ()) (.ok ()), .received ⟨"/org/bluez/hci0/dev_BB"⟩]
      (by intro op hop; simp at hop; rcases hop with rfl | rfl | rfl | rfl <;> rfl)).2.2.2.2⟩

/-- C9, as the source has it: when a registration inside `Start` fails, `Start` returns
false, but the stop gate has been cleared before the registrations were attempted. After
the failing call the gate is clear whatever it was before, the start time is recorded,
the destroy gate, the callback and the trace are as before, and an appearance event then
handled by `OnReceived` is delivered to the callback, when one is set. Of the two
registrations, the first is kept when only the second failed. -/
theorem failed_start_clears_gate (self : AdvertisementWatcher) (now : Nat)
    (added removed : Except Error Unit)
    (hfail : (∃ e, added = .error e) ∨ (∃ e, removed = .error e)) :
    (Start self now added removed).1 = false ∧
    (Start self now added removed).2._stop = false ∧
    (Start self now added removed).2._lastStartTime = now ∧
    (Start self now added removed).2._destroy = self._destroy ∧
    (Start self now added removed).2._callback = self._callback ∧
    (Start self now added removed).2.trace = self.trace ∧
    (∀ p, self._callback = CallbackSlot.target →
      (OnReceived (Start self now added removed).2 ⟨p⟩).trace =
        self.trace ++ [Effect.callback p]) ∧
    ((∃ e, added = .error e) → (Start self now added removed).2._object = self._object) ∧
    (added = .ok () → (Start self now added removed).2._object =
      self._object ++ [⟨"org.freedesktop.DBus.ObjectManager", "InterfacesAdded",
        Handler.OnReceived⟩]) := by
  obtain ⟨hdestroy, hcb, htrace, htime⟩ := Start_frame self now added removed
  have hstop := Start_stop self now added removed
  have hfalse : (Start self now added removed).1 = false := by
    cases h : (Start self now added removed).1 with
    | false => rfl
    | true =>
      obtain ⟨h1, h2⟩ := (Start_fst self now added removed).mp h
      rcases hfail with ⟨e, he⟩ | ⟨e, he⟩
      · rw [h1] at he; cases he
      · rw [h2] at he; cases he
  refine ⟨hfalse, hstop, htime, hdestroy, hcb, htrace, ?_, ?_, ?_⟩
  · intro p hp
    rw [OnReceived_of_listening _ ⟨p⟩ hstop (hcb.trans hp), htrace]
  · rintro ⟨e, rfl⟩
    rfl
  · rintro rfl
    rcases hfail with ⟨e, he⟩ | ⟨e, rfl⟩
    · cases he
    · rfl

/-- C9, on a stopped watcher with a callback whose first registration fails: `Start`
returns false and the gate is clear. -/
theorem failed_start_clears_gate_witness :
    Sample.stoppedWatcher._stop = true ∧
    (Start Sample.stoppedWatcher 9 (.error Sample.disconnected) (.ok ())).1 = false ∧
    (Start Sample.stoppedWatcher 9 (.error Sample.disconnected) (.ok ())).2._stop = false := by
  have h := failed_start_clears_gate Sample.stoppedWatcher 9 (.error Sample.disconnected)
    (.ok ()) (Or.inl ⟨_, rfl⟩)
  exact ⟨rfl, h.1, h.2.1⟩

/-- C9 fails as stated: a watcher with a callback that was stopped has its stop gate set;
a `Start` whose first registration fails returns false and leaves the gate clear, and the
next appearance event handled by `OnReceived` invokes the callback. -/
theorem failed_start_delivers :
    Sample.stoppedWatcher._stop = true ∧
    deliveries Sample.stoppedWatcher = [] ∧
    (Start Sample.stoppedWatcher 9 (.error Sample.disconnected) (.ok ())).1 = false ∧
    (Start Sample.stoppedWatcher 9 (.error Sample.disconnected) (.ok ())).2._stop = false ∧
    deliveries (OnReceived (Start Sample.stoppedWatcher 9 (.error Sample.disconnected)
      (.ok ())).2 ⟨"/org/bluez/hci0/devXX"⟩) = ["/org/bluez/hci0/devXX"] :=
  ⟨rfl, rfl, rfl, rfl, rfl⟩

/-- C10. When an unregistration inside `Stop` fails, `Stop` returns false and the stop
gate is set all the same, whatever the state was before; every event `OnReceived` handles
afterwards is dropped, so nothing more is delivered. -/
theorem failed_stop_sets_gate (self : AdvertisementWatcher) (added removed : Except Error Unit)
    (hfail : (∃ e, added = .error e) ∨ (∃ e, removed = .error e)) :
    (Stop self added removed).1 = false ∧
    (Stop self added removed).2._stop = true ∧
    (∀ signal, OnReceived (Stop self added removed).2 signal = (Stop self added removed).2) ∧
    (∀ signals, deliveries (receiveAll (Stop self added removed).2 signals) =
      deliveries self) := by
  have hstop := Stop_stop self added removed
  have hfalse : (Stop self added removed).1 = false := by
    cases h : (Stop self added removed).1 with
    | false => rfl
    | true =>
      obtain ⟨h1, h2⟩ := (Stop_fst self added removed).mp h
      rcases hfail with ⟨e, he⟩ | ⟨e, he⟩
      · rw [h1] at he; cases he
      · rw [h2] at he; cases he
  refine ⟨hfalse, hstop, fun signal => OnReceived_of_stop _ signal hstop, ?_⟩
  intro signals
  rw [receiveAll_of_stop signals _ hstop, Stop_deliveries]

/-- C10, on a started watcher with a callback: a `Stop` whose first unregistration fails
returns false with the gate set, and a following event is not delivered. -/
theorem failed_stop_sets_gate_witness :
    (Start Sample.listeningWatcher 5 (.ok ()) (.ok ())).2._stop = false ∧
    (Stop (Start Sample.listeningWatcher 5 (.ok ()) (.ok ())).2
      (.error Sample.disconnected) (.ok ())).1 = false ∧
    (Stop (Start Sample.listeningWatcher 5 (.ok ()) (.ok ())).2
      (.error Sample.disconnected) (.ok ())).2._stop = true ∧
    deliveries (receiveAll (Stop (Start Sample.listeningWatcher 5 (.ok ()) (.ok ())).2
      (.error Sample.disconnected) (.ok ())).2 [⟨"/org/bluez/hci0/devXX"⟩]) = [] := by
  have h := failed_stop_sets_gate (Start Sample.listeningWatcher 5 (.ok ()) (.ok ())).2
    (.error Sample.disconnected) (.ok ()) (Or.inl ⟨_, rfl⟩)
  exact ⟨rfl, h.1, h.2.1, h.2.2.2 [⟨"/org/bluez/hci0/devXX"⟩]⟩

end AdvertisementWatcher

/-! ## Device: copies -/

/-- C6. For the copy constructor and for copy assignment alike, whatever the target held
before: the copy reads the same address, name, vendor id, product id and connection
state as the source and has the same path; the source object is unchanged, also when
source and target are the same object; and no round trip is issued on the bus. In
particular, after a device has been constructed from a path and then copied, the copy is
the device that was fetched, and the one round trip of the construction is the only one
issued. -/
theorem Device.copy_is_fieldwise (world : DeviceWorld) (this rhs : Nat) (bus : Bus)
    (path : String) :
    (((Device.copyConstruct world this rhs).store this).GetAddress =
        (world.store rhs).GetAddress ∧
      ((Device.copyConstruct world this rhs).store this).GetName =
        (world.store rhs).GetName ∧
      ((Device.copyConstruct world this rhs).store this).GetVendorId =
        (world.store rhs).GetVendorId ∧
      ((Device.copyConstruct world this rhs).store this).GetProductId =
        (world.store rhs).GetProductId ∧
      ((Device.copyConstruct world this rhs).store this).GetConnectionState =
        (world.store rhs).GetConnectionState ∧
      ((Device.copyConstruct world this rhs).store this)._path = (world.store rhs)._path ∧
      (Device.copyConstruct world this rhs).store rhs = world.store rhs ∧
      (Device.copyConstruct world this rhs).roundTrips = world.roundTrips) ∧
    (((Device.assign world this rhs).store this).GetAddress = (world.store rhs).GetAddress ∧
      ((Device.assign world this rhs).store this).GetName = (world.store rhs).GetName ∧
      ((Device.assign world this rhs).store this).GetVendorId =
        (world.store rhs).GetVendorId ∧
      ((Device.assign world this rhs).store this).GetProductId =
        (world.store rhs).GetProductId ∧
      ((Device.assign world this rhs).store this).GetConnectionState =
        (world.store rhs).GetConnectionState ∧
      ((Device.assign world this rhs).store this)._path = (world.store rhs)._path ∧
      (Device.assign world this rhs).store rhs = world.store rhs ∧
      (Device.assign world this rhs).roundTrips = world.roundTrips) ∧
    ((Device.construct bus world rhs path).1 = .ok () →
      Device.fromPath bus path = .ok ((Device.construct bus world rhs path).2.store rhs) ∧
      (Device.copyConstruct (Device.construct bus world rhs path).2 this rhs).store this =
        (Device.construct bus world rhs path).2.store rhs ∧
      (Device.copyConstruct (Device.construct bus world rhs path).2 this rhs).roundTrips =
        world.roundTrips ++ [(path, "org.bluez.Device1")]) := by
  have h1 : ∀ w : DeviceWorld, (Device.copyConstruct w this rhs).store this = w.store rhs := by
    intro w
    simp [Device.copyConstruct, Device.copy_eq]
  have h2 : (Device.assign world this rhs).store this = world.store rhs := by
    simp [Device.assign, Device.CopyFrom_eq]
  have h3 : (Device.copyConstruct world this rhs).store rhs = world.store rhs := by
    by_cases h : rhs = this
    · subst h; exact h1 world
    · simp [Device.copyConstruct, h]
  have h4 : (Device.assign world this rhs).store rhs = world.store rhs := by
    by_cases h : rhs = this
    · subst h; exact h2
    · simp [Device.assign, h]
  refine ⟨?_, ?_, ?_⟩
  · rw [h1 world]
    exact ⟨rfl, rfl, rfl, rfl, rfl, rfl, h3, rfl⟩
  · rw [h2]
    exact ⟨rfl, rfl, rfl, rfl, rfl, rfl, h4, rfl⟩
  · intro hok
    refine ⟨?_, h1 _, ?_⟩
    · unfold Device.construct at hok ⊢
      cases hfrom : Device.fromPath bus path with
      | error e => simp [hfrom] at hok
      | ok d => simp
    · unfold Device.construct
      cases hfrom : Device.fromPath bus path <;> rfl

/-- C6, on the three-object registry: the device constructed at location 0 from `dev_AA`
and copied to location 1 reads as the fetched device, after a single round trip. -/
theorem Device.copy_is_fieldwise_witness :
    (Device.construct Sample.threeObjectBus Sample.emptyWorld 0 "/org/bluez/hci0/dev_AA").1 =
      .ok () ∧
    (Device.copyConstruct
      (Device.construct Sample.threeObjectBus Sample.emptyWorld 0 "/org/bluez/hci0/dev_AA").2
      1 0).store 1 = Sample.deviceAA ∧
    (Device.copyConstruct
      (Device.construct Sample.threeObjectBus Sample.emptyWorld 0 "/org/bluez/hci0/dev_AA").2
      1 0).roundTrips = [] ++ [("/org/bluez/hci0/dev_AA", "org.bluez.Device1")] := by
  have h := (Device.copy_is_fieldwise Sample.emptyWorld 1 0 Sample.threeObjectBus
    "/org/bluez/hci0/dev_AA").2.2 rfl
  exact ⟨rfl, h.2.1.trans rfl, h.2.2⟩

/-! ## AdvertisementWatcher: stopping twice, removal events, destruction -/

namespace AdvertisementWatcher

/-- The state after a `Stop` during which neither unregistration throws. -/
theorem Stop_ok (self : AdvertisementWatcher) :
    Stop self (.ok ()) (.ok ()) =
      (true,
       { self with
         _stop := true,
         _object :=
           (self._object.filter (fun r =>
              !(r.interfaceName == "org.freedesktop.DBus.ObjectManager" &&
                r.signalName == "InterfacesAdded"))).filter (fun r =>
              !(r.interfaceName == "org.freedesktop.DBus.ObjectManager" &&
                r.signalName == "InterfacesRemoved")),
         trace := self.trace ++ [Effect.waitStop kRetryInterval] }) := rfl

/-- What `Stop` leaves alone, whether it succeeds or not. -/
theorem Stop_frame (self : AdvertisementWatcher) (added removed : Except Error Unit) :
    (Stop self added removed).2._destroy = self._destroy ∧
    (Stop self added removed).2._callback = self._callback ∧
    (Stop self added removed).2._lastStartTime = self._lastStartTime := by
  unfold Stop unregisterSignalHandler
  cases added <;> cases removed <;> exact ⟨rfl, rfl, rfl⟩

/-- The trace after a removal event: the old trace, then the stop signal when the stop
gate is set, then the destroy signal when the destroy gate is set. -/
theorem OnStopped_trace (self : AdvertisementWatcher) (signal : Signal) :
    (OnStopped self signal).trace =
      self.trace ++ ((if self._stop then [Effect.notifyStop] else []) ++
        (if self._destroy then [Effect.notifyDestroy] else [])) := by
  unfold OnStopped
  cases hs : self._stop <;> cases hd : self._destroy <;> simp [hs, hd]

theorem newEffects_OnStopped (self : AdvertisementWatcher) (signal : Signal) :
    newEffects self (OnStopped self signal) =
      (if self._stop then [Effect.notifyStop] else []) ++
        (if self._destroy then [Effect.notifyDestroy] else []) := by
  unfold newEffects
  rw [OnStopped_trace, List.drop_left]

/-- C12, as the source has it: after a removal event the handler has signalled the stop
condition exactly when the stop gate is set, and the destroy condition exactly when the
destroy gate is set, the two gates being tested one after the other and independently;
neither gate is changed. With both gates clear nothing is signalled. In a state where the
destroy gate is set only together with the stop gate, the destroy signal is given exactly
when both gates are set, and then after the stop signal. -/
theorem removal_signals_by_gate (self : AdvertisementWatcher) (signal : Signal) :
    (OnStopped self signal).trace = self.trace ++ newEffects self (OnStopped self signal) ∧
    (Effect.notifyStop ∈ newEffects self (OnStopped self signal) ↔ self._stop = true) ∧
    (Effect.notifyDestroy ∈ newEffects self (OnStopped self signal) ↔
      self._destroy = true) ∧
    (self._stop = false → self._destroy = false →
      OnStopped self signal = self ∧ newEffects self (OnStopped self signal) = []) ∧
    ((self._destroy = true → self._stop = true) →
      (Effect.notifyDestroy ∈ newEffects self (OnStopped self signal) ↔
        self._stop = true ∧ self._destroy = true) ∧
      (self._destroy = true → newEffects self (OnStopped self signal) =
        [Effect.notifyStop, Effect.notifyDestroy])) ∧
    (OnStopped self signal)._stop = self._stop ∧
    (OnStopped self signal)._destroy = self._destroy := by
  have hnew := newEffects_OnStopped self signal
  have htrace := OnStopped_trace self signal
  rw [← hnew] at htrace
  refine ⟨htrace, ?_, ?_, ?_, ?_, OnStopped_stop self signal, ?_⟩
  · rw [hnew]
    cases hs : self._stop <;> cases hd : self._destroy <;> simp
  · rw [hnew]
    cases hs : self._stop <;> cases hd : self._destroy <;> simp
  · intro hs hd
    refine ⟨?_, by rw [hnew]; simp [hs, hd]⟩
    unfold OnStopped
    simp [hs, hd]
  · intro hinv
    rw [hnew]
    cases hs : self._stop <;> cases hd : self._destroy <;> simp
    exact absurd (hinv hd) (by simp [hs])
  · unfold OnStopped
    cases hs : self._stop <;> cases hd : self._destroy <;> simp [hs, hd]

/-- C12, on a stopped watcher (stop gate set, destroy gate clear) and on a destroyed one
(both gates set): the removal event signals the stop condition alone on the first, and
the stop condition followed by the destroy condition on the second. -/
theorem removal_signals_by_gate_witness :
    Sample.stoppedWatcher._stop = true ∧ Sample.stoppedWatcher._destroy = false ∧
    newEffects Sample.stoppedWatcher (OnStopped Sample.stoppedWatcher ⟨"/org/bluez/hci0/dev_AA"⟩) =
      [Effect.notifyStop] ∧
    (destructor Sample.startedWatcher (.ok ()) (.ok ()))._destroy = true ∧
    newEffects (destructor Sample.startedWatcher (.ok ()) (.ok ()))
      (OnStopped (destructor Sample.startedWatcher (.ok ()) (.ok ()))
        ⟨"/org/bluez/hci0/dev_AA"⟩) = [Effect.notifyStop, Effect.notifyDestroy] :=
  ⟨rfl, rfl, rfl, rfl,
    (removal_signals_by_gate (destructor Sample.startedWatcher (.ok ()) (.ok ()))
      ⟨"/org/bluez/hci0/dev_AA"⟩).2.2.2.2.1 (fun _ => rfl) |>.2 rfl⟩

/-- C12 fails as stated: on the started watcher whose destructor has set the destroy gate
and has not yet called `Stop`, the stop gate is clear and the destroy gate is set; a
removal event handled there signals the destroy condition, and not the stop condition. -/
theorem removal_signals_destroy_alone :
    (markDestroying Sample.startedWatcher)._stop = false ∧
    (markDestroying Sample.startedWatcher)._destroy = true ∧
    newEffects (markDestroying Sample.startedWatcher)
      (OnStopped (markDestroying Sample.startedWatcher) ⟨"/org/bluez/hci0/dev_AA"⟩) =
      [Effect.notifyDestroy] ∧
    ¬ (Effect.notifyDestroy ∈ newEffects (markDestroying Sample.startedWatcher)
        (OnStopped (markDestroying Sample.startedWatcher) ⟨"/org/bluez/hci0/dev_AA"⟩) ↔
      (markDestroying Sample.startedWatcher)._stop = true ∧
        (markDestroying Sample.startedWatcher)._destroy = true) := by
  refine ⟨rfl, rfl, rfl, ?_⟩
  intro h
  have hmem : Effect.notifyDestroy ∈ newEffects (markDestroying Sample.startedWatcher)
      (OnStopped (markDestroying Sample.startedWatcher) ⟨"/org/bluez/hci0/dev_AA"⟩) := by
    have : newEffects (markDestroying Sample.startedWatcher)
      (OnStopped (markDestroying Sample.startedWatcher) ⟨"/org/bluez/hci0/dev_AA"⟩) =
      [Effect.notifyDestroy] := rfl
    rw [this]
    exact List.mem_singleton.mpr rfl
  have hstop := (h.mp hmem).1
  have hclear : (markDestroying Sample.startedWatcher)._stop = false := rfl
  rw [hclear] at hstop
  cases hstop

/-- C13. When the stop gate is clear on entry, the destructor sets the destroy gate, runs
`Stop` once on the state so marked, waits once on the destroy condition for one second,
and ends with both gates set; when neither unregistration throws, the effects it adds are
the one wait of `Stop` followed by the destroy wait. When the stop gate is set on entry,
it leaves the state as it is. In either case the stop gate is set at the end, so the
destroy gate is never left set beside a clear stop gate. -/
theorem destructor_stops_unless_stopped (self : AdvertisementWatcher)
    (added removed : Except Error Unit) :
    (self._stop = false →
      destructor self added removed =
        { (Stop (markDestroying self) added removed).2 with
          trace := (Stop (markDestroying self) added removed).2.trace ++
            [Effect.waitDestroy 1] } ∧
      (markDestroying self)._destroy = true ∧
      (destructor self added removed)._stop = true ∧
      (destructor self added removed)._destroy = true ∧
      (destructor self (.ok ()) (.ok ())).trace =
        self.trace ++ [Effect.waitStop 3, Effect.waitDestroy 1]) ∧
    (self._stop = true → destructor self added removed = self) ∧
    (destructor self added removed)._stop = true ∧
    ((destructor self added removed)._destroy = true →
      (destructor self added removed)._stop = true) := by
  have hclear : self._stop = false →
      destructor self added removed =
        { (Stop (markDestroying self) added removed).2 with
          trace := (Stop (markDestroying self) added removed).2.trace ++
            [Effect.waitDestroy 1] } := by
    intro hs
    unfold destructor
    simp [hs]
  have hset : self._stop = true → destructor self added removed = self := by
    intro hs
    unfold destructor
    simp [hs]
  have hend : (destructor self added removed)._stop = true := by
    cases hs : self._stop with
    | false =>
      rw [hclear hs]
      exact Stop_stop (markDestroying self) added removed
    | true =>
      rw [hset hs]
      exact hs
  refine ⟨?_, hset, hend, fun _ => hend⟩
  intro hs
  refine ⟨hclear hs, rfl, hend, ?_, ?_⟩
  · rw [hclear hs]
    exact (Stop_frame (markDestroying self) added removed).1
  · unfold destructor
    simp [hs, Stop_ok, markDestroying, kRetryInterval]

/-- C13, on a started watcher (stop gate clear), whose destructor ends with both gates
set after the two waits, and on a stopped watcher, which its destructor leaves as it is,
destroy gate clear. -/
theorem destructor_stops_unless_stopped_witness :
    Sample.startedWatcher._stop = false ∧
    (destructor Sample.startedWatcher (.ok ()) (.ok ()))._stop = true ∧
    (destructor Sample.startedWatcher (.ok ()) (.ok ()))._destroy = true ∧
    (destructor Sample.startedWatcher (.ok ()) (.ok ())).trace =
      Sample.startedWatcher.trace ++ [Effect.waitStop 3, Effect.waitDestroy 1] ∧
    Sample.stoppedWatcher._stop = true ∧
    destructor Sample.stoppedWatcher (.ok ()) (.ok ()) = Sample.stoppedWatcher ∧
    (destructor Sample.stoppedWatcher (.ok ()) (.ok ()))._destroy = false := by
  have h1 := (destructor_stops_unless_stopped Sample.startedWatcher (.ok ()) (.ok ())).1 rfl
  have h2 := (destructor_stops_unless_stopped Sample.stoppedWatcher (.ok ()) (.ok ())).2.1 rfl
  exact ⟨rfl, h1.2.2.1, h1.2.2.2.1, h1.2.2.2.2, rfl, h2, rfl⟩

end AdvertisementWatcher

end Core.Bluetooth

/-! ## Media control: the method sent by `Pause` -/

namespace Core.GlobalMedia

/-- C14, on the code: `Controller::Pause` passes the method name `Play` to
`sendDbusCommand`, so on every session it does what `Controller::Play` does, and on a
working session the message it sends names the method `Play`, not `Pause`. -/
theorem pause_sends_play (session : Session) :
    Controller.Pause session = Controller.Play session ∧
    Controller.Pause session = sendDbusCommand session "Play" ∧
    Controller.Pause workingSession =
      Outcome.returned (some
        { destination := "org.mpris.MediaPlayer2.player", path := "/org/mpris/MediaPlayer2",
          interfaceName := "org.mpris.MediaPlayer2.Player", method := "Play" }) ∧
    Controller.Pause workingSession ≠ sendDbusCommand workingSession "Pause" := by
  refine ⟨rfl, rfl, rfl, ?_⟩
  decide

end Core.GlobalMedia
